import Mathlib

/-!
Verification of the `wasm-game-of-life` core (`src/lib.rs`): Conway's Game of
Life on a toroidal, bit-per-cell grid.  The `Universe` structure and all of its
operations are shallowly embedded below; the bit-set is modelled as a
`List Bool` indexed exactly like the source's `FixedBitSet` (bit `i` is the
cell at row `i / width`, column `i % width`), and the packed 32-bit block view
exposed by `as_slice()` is modelled by `asSlice`.
-/

/-- The fill modes of `build_cells` (`enum UniverseContents`). -/
inductive UniverseContents
  | Empty
  | Random
  | Lines
  | Spaceship

/-- The shape stamps of `create` (`enum UniverseObjects`). -/
inductive UniverseObjects
  | None
  | Spaceship
  | Pulsar
  | Glider

/-- The 9-cell small-spaceship preset bit of `build_cells`'s
`UniverseContents::Spaceship` arm: linear index `i` is set iff it is one of
`{w, w+1, w+2, w+3, 2w, 2w+4, 3w, 4w+1, 4w+4}`. -/
def spaceshipBit (width i : Nat) : Bool :=
  i == width || i == width + 1 || i == width + 2 || i == width + 3
    || i == 2 * width || i == 2 * width + 4 || i == 3 * width
    || i == 4 * width + 1 || i == 4 * width + 4

/-- `build_cells` from `src/lib.rs`: starting from a clone of the given
bit-set, write every linear index `i < width*height` with the bit dictated by
the fill mode.  The source's ambient `js_sys::Math::random()` draw is modelled
by the explicit oracle `rand : Nat → Bool` (the spec requires the random
source to be injectable); the other modes ignore it. -/
def build_cells (bitset : List Bool) (width height : Nat)
    (build_type : UniverseContents) (rand : Nat → Bool) : List Bool :=
  match build_type with
  | UniverseContents.Spaceship =>
      (List.range (width * height)).foldl
        (fun new_cells i => new_cells.set i (spaceshipBit width i)) bitset
  | UniverseContents.Random =>
      (List.range (width * height)).foldl
        (fun new_cells i => new_cells.set i (rand i)) bitset
  | UniverseContents.Lines =>
      (List.range (width * height)).foldl
        (fun new_cells i => new_cells.set i (i % 2 == 0 || i % 7 == 0)) bitset
  | UniverseContents.Empty =>
      (List.range (width * height)).foldl
        (fun new_cells i => new_cells.set i false) bitset

/-- The universe: dimensions plus the bit-per-cell grid (`struct Universe`). -/
structure Universe where
  width : Nat
  height : Nat
  cells : List Bool
deriving DecidableEq

namespace Universe

/-- `Universe::get_index`: linear index `row * width + column`. -/
def get_index (u : Universe) (row column : Nat) : Nat :=
  row * u.width + column

/-- `Universe::new`: an 80×64 universe filled with the `Lines` pattern
(the commented-out `Random`/`Spaceship` alternatives are not the live code). -/
def new : Universe :=
  { width := 80
    height := 64
    cells := build_cells (List.replicate (80 * 64) false) 80 64
      UniverseContents.Lines (fun _ => false) }

/-- `Universe::live_neighbour_count`: iterate `delta_row` over
`[height-1, 0, 1]` and `delta_col` over `[width-1, 0, 1]`, skip the iteration
whose two deltas are both zero, and sum the bit at
`((row+delta_row) mod height, (col+delta_col) mod width)`. -/
def live_neighbour_count (u : Universe) (row column : Nat) : Nat :=
  [u.height - 1, 0, 1].foldl (fun count delta_row =>
    [u.width - 1, 0, 1].foldl (fun count delta_col =>
      if delta_col = 0 ∧ delta_row = 0 then count
      else
        let neighbour_row := (row + delta_row) % u.height
        let neighbour_col := (column + delta_col) % u.width
        let idx := u.get_index neighbour_row neighbour_col
        count + (if u.cells.getD idx false then 1 else 0)) count) 0

/-- The cell-update rule of `Universe::tick`'s `match (cell, live_neighbours)`:
a live cell with fewer than 2 or more than 3 neighbours dies, a dead cell with
exactly 3 neighbours is born, everything else is unchanged. -/
def tickRule (cell : Bool) (live_neighbours : Nat) : Bool :=
  if cell = true ∧ (live_neighbours < 2 ∨ live_neighbours > 3) then false
  else if cell = false ∧ live_neighbours = 3 then true
  else cell

/-- The value `Universe::tick` writes into the scratch bit-set at `(row, col)`:
the rule applied to the pre-tick bit and the pre-tick neighbour count. -/
def tickWrite (u : Universe) (row col : Nat) : Bool :=
  tickRule (u.cells.getD (u.get_index row col) false) (u.live_neighbour_count row col)

/-- The inner (column) loop of `Universe::tick` for one row: write each index
of the row into the scratch bit-set. -/
def tickRow (u : Universe) (next : List Bool) (row : Nat) : List Bool :=
  (List.range u.width).foldl
    (fun next col => next.set (u.get_index row col) (tickWrite u row col)) next

/-- `Universe::tick`: run the row loop over a scratch copy of the grid (all
reads go to the pre-tick `u.cells`), then replace the grid with the scratch. -/
def tick (u : Universe) : Universe :=
  { u with cells := (List.range u.height).foldl (tickRow u) u.cells }

/-- `Universe::set_width`: set the width and rebuild the bit-set at the new
size with the `Empty` fill. -/
def set_width (u : Universe) (width : Nat) : Universe :=
  { u with
      width := width
      cells := build_cells (List.replicate (width * u.height) false)
        width u.height UniverseContents.Empty (fun _ => false) }

/-- `Universe::set_height`: set the height and rebuild the bit-set at the new
size with the `Empty` fill. -/
def set_height (u : Universe) (height : Nat) : Universe :=
  { u with
      height := height
      cells := build_cells (List.replicate (u.width * height) false)
        u.width height UniverseContents.Empty (fun _ => false) }

/-- `Universe::clear_cells`: rebuild at the current size, `Empty` fill. -/
def clear_cells (u : Universe) : Universe :=
  { u with
      cells := build_cells (List.replicate (u.width * u.height) false)
        u.width u.height UniverseContents.Empty (fun _ => false) }

/-- `Universe::randomize_cells`: rebuild at the current size, `Random` fill
driven by the random oracle. -/
def randomize_cells (u : Universe) (rand : Nat → Bool) : Universe :=
  { u with
      cells := build_cells (List.replicate (u.width * u.height) false)
        u.width u.height UniverseContents.Random rand }

/-- Toggle the bit at linear index `idx` (`FixedBitSet::toggle`). -/
def toggleIdx (cs : List Bool) (idx : Nat) : List Bool :=
  cs.set idx (! cs.getD idx false)

/-- `Universe::set_cells`: toggle the bit at each coordinate's linear index. -/
def set_cells (u : Universe) (cells : List (Nat × Nat)) : Universe :=
  { u with cells := cells.foldl (fun cs p => toggleIdx cs (p.1 * u.width + p.2)) u.cells }

/-- `Universe::toggle_cell`: toggle a single cell via `set_cells`. -/
def toggle_cell (u : Universe) (row column : Nat) : Universe :=
  u.set_cells [(row, column)]

/-- `Universe::row_add`: `(row + to_add) % height`. -/
def row_add (u : Universe) (row to_add : Nat) : Nat :=
  (row + to_add) % u.height

/-- `Universe::col_add`: `(col + to_add) % width`. -/
def col_add (u : Universe) (col to_add : Nat) : Nat :=
  (col + to_add) % u.width

/-- `Universe::create_glider`: toggle the 5 cells at offsets
`(0,0),(0,1),(0,2),(1,0),(2,1)` from the anchor, rows and columns wrapped. -/
def create_glider (u : Universe) (row col : Nat) : Universe :=
  u.set_cells [
    (row, col),
    (row, u.col_add col 1),
    (row, u.col_add col 2),
    (u.row_add row 1, col),
    (u.row_add row 2, u.col_add col 1)]

/-- `Universe::create_pulsar_horizontal_row`: 6 cells at column offsets
`2,3,4,8,9,10` on the given row. -/
def create_pulsar_horizontal_row (u : Universe) (row col : Nat) : List (Nat × Nat) :=
  [(row, u.col_add col 2),
   (row, u.col_add col 3),
   (row, u.col_add col 4),
   (row, u.col_add col 8),
   (row, u.col_add col 9),
   (row, u.col_add col 10)]

/-- `Universe::create_pulsar_vertical_row`: 4 cells at column offsets
`0,5,7,12` on the given row. -/
def create_pulsar_vertical_row (u : Universe) (row col : Nat) : List (Nat × Nat) :=
  [(row, col),
   (row, u.col_add col 5),
   (row, u.col_add col 7),
   (row, u.col_add col 12)]

/-- `Universe::create_pulsar`: toggle the concatenation of the horizontal
template at row offsets `0,5,7,12` and the vertical template at row offsets
`2,3,4,8,9,10`. -/
def create_pulsar (u : Universe) (row col : Nat) : Universe :=
  u.set_cells
    (u.create_pulsar_horizontal_row row col
      ++ u.create_pulsar_vertical_row (u.row_add row 2) col
      ++ u.create_pulsar_vertical_row (u.row_add row 3) col
      ++ u.create_pulsar_vertical_row (u.row_add row 4) col
      ++ u.create_pulsar_horizontal_row (u.row_add row 5) col
      ++ u.create_pulsar_horizontal_row (u.row_add row 7) col
      ++ u.create_pulsar_vertical_row (u.row_add row 8) col
      ++ u.create_pulsar_vertical_row (u.row_add row 9) col
      ++ u.create_pulsar_vertical_row (u.row_add row 10) col
      ++ u.create_pulsar_horizontal_row (u.row_add row 12) col)

/-- `Universe::create_spaceship`: an empty function body — no mutation. -/
def create_spaceship (u : Universe) (row col : Nat) : Universe :=
  u

/-- `Universe::create`: dispatch a `UniverseObjects` stamp; the `None`
fallback toggles the single anchor cell. -/
def create (u : Universe) (type_name : UniverseObjects) (row col : Nat) : Universe :=
  match type_name with
  | UniverseObjects.Pulsar => u.create_pulsar row col
  | UniverseObjects.Spaceship => u.create_spaceship row col
  | UniverseObjects.Glider => u.create_glider row col
  | UniverseObjects.None => u.set_cells [(row, col)]

/-- `Universe::create_object`: map the type name string to a
`UniverseObjects` value (unrecognized names map to `None`) and dispatch. -/
def create_object (u : Universe) (type_name : String) (row col : Nat) : Universe :=
  u.create
    (match type_name with
     | "glider" => UniverseObjects.Glider
     | "spaceship" => UniverseObjects.Spaceship
     | "pulsar" => UniverseObjects.Pulsar
     | _ => UniverseObjects.None)
    row col

/-- The value of 32-bit block `j` of the `FixedBitSet` backing storage:
bit `i` of the grid lives in block `i / 32` at bit position `i % 32`. -/
def blockValue (cells : List Bool) (j : Nat) : Nat :=
  ((List.range 32).map (fun k => if cells.getD (32 * j + k) false then 2 ^ k else 0)).sum

/-- `FixedBitSet::as_slice`: the list of all `⌈len/32⌉` packed 32-bit blocks. -/
def asSlice (cells : List Bool) : List Nat :=
  (List.range ((cells.length + 31) / 32)).map (blockValue cells)

/-- Fuel-driven worker for `chunksOf` (structural recursion so that the kernel
can evaluate it). -/
def chunksOfFuel : Nat → Nat → List Nat → List (List Nat)
  | 0, _, _ => []
  | _ + 1, _, [] => []
  | fuel + 1, n, x :: xs => (x :: xs).take n :: chunksOfFuel fuel n ((x :: xs).drop n)

/-- `slice::chunks n`: split a list into consecutive chunks of `n` elements,
the last chunk possibly shorter (faithful for `n ≥ 1`). -/
def chunksOf (n : Nat) (l : List Nat) : List (List Nat) :=
  chunksOfFuel l.length n l

/-- `impl fmt::Display for Universe` / `Universe::render`: iterate the packed
32-bit blocks of `cells.as_slice()` in chunks of `width` blocks, print `'◻'`
for a zero block and `'◼'` for a nonzero block, and end each chunk with a
newline.  (Note: the source iterates blocks, not cells.) -/
def render (u : Universe) : String :=
  ((chunksOf u.width (asSlice u.cells)).map
    (fun line =>
      String.mk (line.map (fun cell => if cell == 0 then '◻' else '◼')) ++ "\n")).foldl
    (fun acc s => acc ++ s) ""

end Universe

/-- Modelled from the spec (claim-side definition, for comparison with the
code's `live_neighbour_count`): the bit contributed by offset pair `(dr, dc)`,
i.e. the bit at `((row+dr) mod height) * width + ((col+dc) mod width)`. -/
def neighbourBit (u : Universe) (row col dr dc : Nat) : Nat :=
  if u.cells.getD (((row + dr) % u.height) * u.width + ((col + dc) % u.width)) false
  then 1 else 0

/-- Modelled from the spec (claim-side definition): the sum, over the 8 offset
pairs drawn from `{height-1, 0, 1} × {width-1, 0, 1}` excluding the centre
`(0, 0)`, of the bit at the wrapped neighbour position. -/
def specNeighbourCount (u : Universe) (row col : Nat) : Nat :=
  neighbourBit u row col (u.height - 1) (u.width - 1)
    + neighbourBit u row col (u.height - 1) 0
    + neighbourBit u row col (u.height - 1) 1
    + neighbourBit u row col 0 (u.width - 1)
    + neighbourBit u row col 0 1
    + neighbourBit u row col 1 (u.width - 1)
    + neighbourBit u row col 1 0
    + neighbourBit u row col 1 1

/-- Modelled from the spec (claim-side definition, for comparison with the
code's `render`): one line per row, `'◼'` for a live cell and `'◻'` for a dead
cell, each row newline-terminated. -/
def specRender (u : Universe) : String :=
  ((List.range u.height).map (fun row =>
    String.mk ((List.range u.width).map
      (fun col => if u.cells.getD (row * u.width + col) false then '◼' else '◻'))
      ++ "\n")).foldl (fun acc s => acc ++ s) ""

/-- The grid with every cell taken from the cell `dr` rows below and `dc`
columns to the right (wrapped); equivalently, the grid translated by
`(-dr, -dc)`.  Translation by `(+1, +1)` is `translateDiag u (h-1) (w-1)`
and translation by `(-1, -1)` is `translateDiag u 1 1`. -/
def translateDiag (u : Universe) (dr dc : Nat) : Universe :=
  { u with cells :=
      (List.range (u.height * u.width)).map (fun i =>
        u.cells.getD
          (((i / u.width + dr) % u.height) * u.width + ((i % u.width + dc) % u.width))
          false) }

/-- The length invariant of the data model: the bit-set has exactly
`width * height` bits. -/
def SizeInv (u : Universe) : Prop :=
  u.cells.length = u.width * u.height

/-! ### Generic lemmas about loops that write a bit-set -/

lemma getD_set_ne (cs : List Bool) {i j : Nat} (b : Bool) (h : i ≠ j) :
    (cs.set i b).getD j false = cs.getD j false := by
  simp [List.getD_eq_getElem?_getD, List.getElem?_set_ne h]

lemma getD_set_self (cs : List Bool) {i : Nat} (b : Bool) (h : i < cs.length) :
    (cs.set i b).getD i false = b := by
  simp [List.getD_eq_getElem?_getD, List.getElem?_set_self h]

lemma set_getD_self (cs : List Bool) {i : Nat} (h : i < cs.length) :
    cs.set i (cs.getD i false) = cs := by
  apply List.ext_getElem?
  intro n
  rw [List.getElem?_set]
  by_cases hin : i = n
  · subst hin
    simp [h, List.getD_eq_getElem?_getD, List.getElem?_eq_getElem h]
  · simp [hin]

lemma foldl_set_length {α : Type} (e : α → Nat) (g : α → Bool) :
    ∀ (l : List α) (cs : List Bool),
      (l.foldl (fun cs x => cs.set (e x) (g x)) cs).length = cs.length
  | [], _ => rfl
  | a :: t, cs => by
      rw [List.foldl_cons, foldl_set_length e g t, List.length_set]

lemma foldl_set_getD_of_ne {α : Type} (e : α → Nat) (g : α → Bool) :
    ∀ (l : List α) (cs : List Bool) (j : Nat), (∀ x ∈ l, e x ≠ j) →
      (l.foldl (fun cs x => cs.set (e x) (g x)) cs).getD j false = cs.getD j false
  | [], _, _, _ => rfl
  | a :: t, cs, j, h => by
      rw [List.foldl_cons,
        foldl_set_getD_of_ne e g t _ j (fun x hx => h x (List.mem_cons_of_mem a hx)),
        getD_set_ne cs _ (h a (List.mem_cons_self a t))]

lemma foldl_set_getD_of_mem {α : Type} (e : α → Nat) (g : α → Bool) :
    ∀ (l : List α) (cs : List Bool) (y : α) (j : Nat), y ∈ l → e y = j →
      (∀ x ∈ l, e x = j → g x = g y) → j < cs.length →
      (l.foldl (fun cs x => cs.set (e x) (g x)) cs).getD j false = g y
  | [], _, _, _, hy, _, _, _ => absurd hy (List.not_mem_nil _)
  | a :: t, cs, y, j, hy, hej, huni, hj => by
      rw [List.foldl_cons]
      by_cases hex : ∃ x ∈ t, e x = j
      · obtain ⟨x, hxt, hxj⟩ := hex
        have hx0 : g x = g y := huni x (List.mem_cons_of_mem a hxt) hxj
        rw [← hx0]
        exact foldl_set_getD_of_mem e g t _ x j hxt hxj
          (fun z hz hzj => by
            rw [huni z (List.mem_cons_of_mem a hz) hzj, hx0])
          (by rw [List.length_set]; exact hj)
      · have hyt : y = a := by
          rcases List.mem_cons.mp hy with h | h
          · exact h
          · exact absurd ⟨y, h, hej⟩ hex
        subst hyt
        rw [foldl_set_getD_of_ne e g t _ j (fun x hx => fun hxj => hex ⟨x, hx, hxj⟩),
          hej, getD_set_self cs _ (hej ▸ hj)]

/-! ### Row/column index arithmetic -/

lemma rowcol_lt {row col w h : Nat} (hr : row < h) (hc : col < w) :
    row * w + col < w * h :=
  calc row * w + col < row * w + w := by omega
    _ = (row + 1) * w := (Nat.succ_mul row w).symm
    _ ≤ h * w := Nat.mul_le_mul_right w hr
    _ = w * h := Nat.mul_comm h w

lemma rowcol_inj {w a b c d : Nat} (hc : c < w) (hd : d < w)
    (h : a * w + c = b * w + d) : a = b ∧ c = d := by
  have hw : 0 < w := Nat.lt_of_le_of_lt (Nat.zero_le c) hc
  have key : ∀ x y : Nat, y < w → (x * w + y) / w = x := by
    intro x y hy
    rw [Nat.mul_comm, Nat.mul_add_div hw, Nat.div_eq_of_lt hy, Nat.add_zero]
  have hab : a = b := by
    rw [← key a c hc, ← key b d hd, h]
  refine ⟨hab, ?_⟩
  subst hab
  omega

/-! ### Pointwise characterization of `tick` -/

lemma tickRow_length (u : Universe) (next : List Bool) (row : Nat) :
    (Universe.tickRow u next row).length = next.length :=
  foldl_set_length (fun col => u.get_index row col) (fun col => u.tickWrite row col)
    (List.range u.width) next

lemma tickRow_getD_of_ne (u : Universe) (next : List Bool) (row j : Nat)
    (h : ∀ col, col < u.width → u.get_index row col ≠ j) :
    (Universe.tickRow u next row).getD j false = next.getD j false :=
  foldl_set_getD_of_ne (fun col => u.get_index row col) (fun col => u.tickWrite row col)
    (List.range u.width) next j (fun x hx => h x (List.mem_range.mp hx))

lemma tickRow_getD_self (u : Universe) (next : List Bool) (row col : Nat)
    (hc : col < u.width) (hj : u.get_index row col < next.length) :
    (Universe.tickRow u next row).getD (u.get_index row col) false = u.tickWrite row col :=
  foldl_set_getD_of_mem (fun c => u.get_index row c) (fun c => u.tickWrite row c)
    (List.range u.width) next col (u.get_index row col) (List.mem_range.mpr hc) rfl
    (fun c _ hcj => by
      have : c = col := by
        simp only [Universe.get_index] at hcj
        omega
      rw [this])
    hj

lemma foldl_tickRow_length (u : Universe) :
    ∀ (rows : List Nat) (cs : List Bool),
      (rows.foldl (Universe.tickRow u) cs).length = cs.length
  | [], _ => rfl
  | r :: t, cs => by
      rw [List.foldl_cons, foldl_tickRow_length u t, tickRow_length]

lemma foldl_tickRow_getD_of_ne (u : Universe) :
    ∀ (rows : List Nat) (cs : List Bool) (j : Nat),
      (∀ r ∈ rows, ∀ c, c < u.width → u.get_index r c ≠ j) →
      (rows.foldl (Universe.tickRow u) cs).getD j false = cs.getD j false
  | [], _, _, _ => rfl
  | r :: t, cs, j, h => by
      rw [List.foldl_cons,
        foldl_tickRow_getD_of_ne u t _ j (fun x hx => h x (List.mem_cons_of_mem r hx)),
        tickRow_getD_of_ne u cs r j (h r (List.mem_cons_self r t))]

lemma foldl_tickRow_getD_of_mem (u : Universe) :
    ∀ (rows : List Nat) (cs : List Bool) (row col : Nat),
      row ∈ rows → col < u.width → u.get_index row col < cs.length →
      (rows.foldl (Universe.tickRow u) cs).getD (u.get_index row col) false
        = u.tickWrite row col
  | [], _, _, _, hmem, _, _ => absurd hmem (List.not_mem_nil _)
  | r :: t, cs, row, col, hmem, hc, hj => by
      rw [List.foldl_cons]
      by_cases hrt : row ∈ t
      · exact foldl_tickRow_getD_of_mem u t _ row col hrt hc
          (by rw [tickRow_length]; exact hj)
      · have hrow : row = r := by
          rcases List.mem_cons.mp hmem with h | h
          · exact h
          · exact absurd h hrt
        subst hrow
        rw [foldl_tickRow_getD_of_ne u t _ _ ?_, tickRow_getD_self u cs row col hc hj]
        intro x hx c hcw heq
        simp only [Universe.get_index] at heq
        exact hrt ((rowcol_inj hcw hc heq).1 ▸ hx)

lemma tick_cells_length (u : Universe) : u.tick.cells.length = u.cells.length :=
  foldl_tickRow_length u (List.range u.height) u.cells

lemma tick_getD (u : Universe) (hlen : SizeInv u)
    {row col : Nat} (hr : row < u.height) (hc : col < u.width) :
    u.tick.cells.getD (row * u.width + col) false = u.tickWrite row col :=
  foldl_tickRow_getD_of_mem u (List.range u.height) u.cells row col
    (List.mem_range.mpr hr) hc (by rw [hlen]; exact rowcol_lt hr hc)

/-! ### The neighbour count versus the spec's 8-offset sum -/

lemma live_neighbour_count_eq_spec (u : Universe) (hw : 2 ≤ u.width) (hh : 2 ≤ u.height)
    (row col : Nat) :
    u.live_neighbour_count row col = specNeighbourCount u row col := by
  have h1 : ¬ (u.width - 1 = 0) := by omega
  have h2 : ¬ (u.height - 1 = 0) := by omega
  simp only [Universe.live_neighbour_count, specNeighbourCount, neighbourBit,
    Universe.get_index, List.foldl_cons, List.foldl_nil, h1, h2, false_and, and_false,
    and_true, true_and, if_false, if_true, and_self, Nat.zero_add]
  norm_num

lemma neighbourBit_le_one (u : Universe) (row col dr dc : Nat) :
    neighbourBit u row col dr dc ≤ 1 := by
  unfold neighbourBit
  split
  · exact Nat.le_refl 1
  · exact Nat.zero_le 1

lemma specNeighbourCount_le_eight (u : Universe) (row col : Nat) :
    specNeighbourCount u row col ≤ 8 := by
  have b1 := neighbourBit_le_one u row col (u.height - 1) (u.width - 1)
  have b2 := neighbourBit_le_one u row col (u.height - 1) 0
  have b3 := neighbourBit_le_one u row col (u.height - 1) 1
  have b4 := neighbourBit_le_one u row col 0 (u.width - 1)
  have b5 := neighbourBit_le_one u row col 0 1
  have b6 := neighbourBit_le_one u row col 1 (u.width - 1)
  have b7 := neighbourBit_le_one u row col 1 0
  have b8 := neighbourBit_le_one u row col 1 1
  unfold specNeighbourCount
  omega

/-! ### Length preservation of the bit-set operations -/

lemma build_cells_length (bitset : List Bool) (width height : Nat)
    (build_type : UniverseContents) (rand : Nat → Bool) :
    (build_cells bitset width height build_type rand).length = bitset.length := by
  cases build_type
  · exact foldl_set_length (fun i => i) (fun _ => false) (List.range (width * height)) bitset
  · exact foldl_set_length (fun i => i) (fun i => rand i) (List.range (width * height)) bitset
  · exact foldl_set_length (fun i => i) (fun i => (i % 2 == 0 || i % 7 == 0))
      (List.range (width * height)) bitset
  · exact foldl_set_length (fun i => i) (fun i => spaceshipBit width i)
      (List.range (width * height)) bitset

lemma foldl_toggle_length (w : Nat) :
    ∀ (l : List (Nat × Nat)) (cs : List Bool),
      (l.foldl (fun cs p => Universe.toggleIdx cs (p.1 * w + p.2)) cs).length = cs.length
  | [], _ => rfl
  | p :: t, cs => by
      rw [List.foldl_cons, foldl_toggle_length w t, Universe.toggleIdx, List.length_set]

lemma set_cells_length (u : Universe) (l : List (Nat × Nat)) :
    (u.set_cells l).cells.length = u.cells.length :=
  foldl_toggle_length u.width l u.cells

lemma create_cells_length (u : Universe) (obj : UniverseObjects) (row col : Nat) :
    (u.create obj row col).cells.length = u.cells.length := by
  cases obj
  · exact set_cells_length u _
  · rfl
  · exact set_cells_length u _
  · exact set_cells_length u _

/-! ### Toggling is an involution -/

lemma toggleIdx_toggleIdx (cs : List Bool) (i : Nat) :
    Universe.toggleIdx (Universe.toggleIdx cs i) i = cs := by
  by_cases h : i < cs.length
  · unfold Universe.toggleIdx
    rw [getD_set_self cs _ h, List.set_set, Bool.not_not]
    exact set_getD_self cs h
  · unfold Universe.toggleIdx
    rw [List.set_eq_of_length_le (Nat.le_of_not_lt h),
      List.set_eq_of_length_le (Nat.le_of_not_lt h)]

lemma toggleIdx_comm (cs : List Bool) (i j : Nat) :
    Universe.toggleIdx (Universe.toggleIdx cs i) j
      = Universe.toggleIdx (Universe.toggleIdx cs j) i := by
  by_cases hij : i = j
  · rw [hij]
  · unfold Universe.toggleIdx
    rw [getD_set_ne cs _ hij, getD_set_ne cs _ (Ne.symm hij),
      List.set_comm _ _ _ hij]

lemma foldl_toggle_comm (w : Nat) :
    ∀ (l : List (Nat × Nat)) (cs : List Bool) (i : Nat),
      Universe.toggleIdx (l.foldl (fun cs p => Universe.toggleIdx cs (p.1 * w + p.2)) cs) i
        = l.foldl (fun cs p => Universe.toggleIdx cs (p.1 * w + p.2)) (Universe.toggleIdx cs i)
  | [], _, _ => rfl
  | p :: t, cs, i => by
      rw [List.foldl_cons, List.foldl_cons, foldl_toggle_comm w t, toggleIdx_comm]

lemma foldl_toggle_invol (w : Nat) :
    ∀ (l : List (Nat × Nat)) (cs : List Bool),
      l.foldl (fun cs p => Universe.toggleIdx cs (p.1 * w + p.2))
        (l.foldl (fun cs p => Universe.toggleIdx cs (p.1 * w + p.2)) cs) = cs
  | [], _ => rfl
  | p :: t, cs => by
      rw [List.foldl_cons, List.foldl_cons, foldl_toggle_comm w t,
        toggleIdx_toggleIdx, foldl_toggle_invol w t]

/-! ### The `Empty` fill is the all-false grid -/

lemma foldl_set_false_replicate :
    ∀ (l : List Nat) (n : Nat),
      l.foldl (fun cs i => cs.set i false) (List.replicate n false) = List.replicate n false
  | [], _ => rfl
  | i :: t, n => by
      rw [List.foldl_cons, List.set_replicate_self, foldl_set_false_replicate t n]

lemma build_cells_empty (width height n : Nat) (rand : Nat → Bool) :
    build_cells (List.replicate n false) width height UniverseContents.Empty rand
      = List.replicate n false :=
  foldl_set_false_replicate (List.range (width * height)) n

/-! ### The update rule is B3/S23 -/

lemma tickRule_iff (cell : Bool) (n : Nat) :
    Universe.tickRule cell n = true
      ↔ ((cell = true ∧ (n = 2 ∨ n = 3)) ∨ (cell = false ∧ n = 3)) := by
  cases cell <;> simp [Universe.tickRule] <;> omega

lemma set_cells_width (u : Universe) (l : List (Nat × Nat)) :
    (u.set_cells l).width = u.width := rfl

lemma set_cells_height (u : Universe) (l : List (Nat × Nat)) :
    (u.set_cells l).height = u.height := rfl

lemma create_width (u : Universe) (obj : UniverseObjects) (row col : Nat) :
    (u.create obj row col).width = u.width := by
  cases obj
  · exact set_cells_width u _
  · rfl
  · exact set_cells_width u _
  · exact set_cells_width u _

lemma create_height (u : Universe) (obj : UniverseObjects) (row col : Nat) :
    (u.create obj row col).height = u.height := by
  cases obj
  · exact set_cells_height u _
  · rfl
  · exact set_cells_height u _
  · exact set_cells_height u _

/-! ### Claim theorems -/

/-- Claim C1 (amended to widths and heights at least 2): after `tick`, the cell
at `(row, col)` is alive iff the B3/S23 rule applied to the pre-tick grid says
so, with the neighbour count taken as the spec's sum over the 8 toroidal
offset pairs. -/
theorem tick_follows_b3s23 (u : Universe) (hlen : SizeInv u) (hw : 2 ≤ u.width)
    (hh : 2 ≤ u.height) (row col : Nat) (hr : row < u.height) (hc : col < u.width) :
    u.tick.cells.getD (row * u.width + col) false = true ↔
      ((u.cells.getD (row * u.width + col) false = true ∧
        (specNeighbourCount u row col = 2 ∨ specNeighbourCount u row col = 3)) ∨
       (u.cells.getD (row * u.width + col) false = false ∧
        specNeighbourCount u row col = 3)) := by
  rw [tick_getD u hlen hr hc]
  unfold Universe.tickWrite
  rw [live_neighbour_count_eq_spec u hw hh row col]
  exact tickRule_iff (u.cells.getD (row * u.width + col) false) (specNeighbourCount u row col)

/-- Witness for C1: the amended theorem applied to a concrete 2×2 universe. -/
theorem tick_follows_b3s23_witness :
    (Universe.tick ⟨2, 2, [true, true, false, false]⟩).cells.getD (0 * 2 + 0) false = true ↔
      (((⟨2, 2, [true, true, false, false]⟩ : Universe).cells.getD (0 * 2 + 0) false = true ∧
        (specNeighbourCount ⟨2, 2, [true, true, false, false]⟩ 0 0 = 2 ∨
         specNeighbourCount ⟨2, 2, [true, true, false, false]⟩ 0 0 = 3)) ∨
       ((⟨2, 2, [true, true, false, false]⟩ : Universe).cells.getD (0 * 2 + 0) false = false ∧
        specNeighbourCount ⟨2, 2, [true, true, false, false]⟩ 0 0 = 3)) :=
  tick_follows_b3s23 ⟨2, 2, [true, true, false, false]⟩ rfl (by decide) (by decide)
    0 0 (by decide) (by decide)

/-- Counterexample to C1 as stated: on the 3×1 universe `[X..]` (allowed by
the claim's `width ≥ 1, height ≥ 1`), the live cell `(0,0)` has 8-offset
toroidal neighbour count 2, so the claim says it survives, but the code kills
it (its skip rule counts only 1 live neighbour there). -/
theorem tick_b3s23_as_stated_cex :
    ¬ ((Universe.tick ⟨3, 1, [true, false, false]⟩).cells.getD (0 * 3 + 0) false = true ↔
      (((⟨3, 1, [true, false, false]⟩ : Universe).cells.getD (0 * 3 + 0) false = true ∧
        (specNeighbourCount ⟨3, 1, [true, false, false]⟩ 0 0 = 2 ∨
         specNeighbourCount ⟨3, 1, [true, false, false]⟩ 0 0 = 3)) ∨
       ((⟨3, 1, [true, false, false]⟩ : Universe).cells.getD (0 * 3 + 0) false = false ∧
        specNeighbourCount ⟨3, 1, [true, false, false]⟩ 0 0 = 3))) := by
  decide

/-- Claim C2 (amended to widths and heights at least 2): for in-range
`(row, col)`, `live_neighbour_count` equals the spec's sum over the 8 offset
pairs drawn from `{height-1,0,1} × {width-1,0,1}` excluding `(0,0)`, the
result is at most 8, and a live cell at `(height-1, width-1)` is counted as a
neighbour of `(0, 0)`. -/
theorem live_neighbour_count_matches_spec (u : Universe) (hw : 2 ≤ u.width)
    (hh : 2 ≤ u.height) :
    (∀ row col, row < u.height → col < u.width →
      u.live_neighbour_count row col = specNeighbourCount u row col ∧
      u.live_neighbour_count row col ≤ 8) ∧
    (u.cells.getD ((u.height - 1) * u.width + (u.width - 1)) false = true →
      1 ≤ u.live_neighbour_count 0 0) := by
  constructor
  · intro row col _ _
    refine ⟨live_neighbour_count_eq_spec u hw hh row col, ?_⟩
    rw [live_neighbour_count_eq_spec u hw hh row col]
    exact specNeighbourCount_le_eight u row col
  · intro hcell
    rw [live_neighbour_count_eq_spec u hw hh 0 0]
    have hbit : neighbourBit u 0 0 (u.height - 1) (u.width - 1) = 1 := by
      unfold neighbourBit
      rw [Nat.zero_add, Nat.zero_add,
        Nat.mod_eq_of_lt (show u.height - 1 < u.height by omega),
        Nat.mod_eq_of_lt (show u.width - 1 < u.width by omega), hcell]
      simp
    unfold specNeighbourCount
    omega

/-- Witness for C2: the theorem applied to a concrete 2×2 universe whose only
live cell sits at `(height-1, width-1)`. -/
theorem live_neighbour_count_matches_spec_witness :
    Universe.live_neighbour_count ⟨2, 2, [false, false, false, true]⟩ 0 0
        = specNeighbourCount ⟨2, 2, [false, false, false, true]⟩ 0 0 ∧
      1 ≤ Universe.live_neighbour_count ⟨2, 2, [false, false, false, true]⟩ 0 0 :=
  ⟨((live_neighbour_count_matches_spec ⟨2, 2, [false, false, false, true]⟩
      (by decide) (by decide)).1 0 0 (by decide) (by decide)).1,
   (live_neighbour_count_matches_spec ⟨2, 2, [false, false, false, true]⟩
      (by decide) (by decide)).2 (by decide)⟩

/-- Counterexample to C2 as stated: on the 3×1 universe `[X..]` (allowed by
`width ≥ 1, height ≥ 1`) the code counts 1 live neighbour for `(0,0)` while
the spec's 8-offset sum is 2 (two of the 8 wrapped offsets land on the cell
itself, which the code's both-deltas-zero skip excludes twice). -/
theorem live_neighbour_count_as_stated_cex :
    Universe.live_neighbour_count ⟨3, 1, [true, false, false]⟩ 0 0 = 1 ∧
    specNeighbourCount ⟨3, 1, [true, false, false]⟩ 0 0 = 2 := by
  decide

set_option maxRecDepth 100000 in
/-- Claim C3 (amended): stamping a glider at `(5,5)` on an empty 10×10 torus
via `create_object "glider" 5 5` and ticking 4 times yields the original
stamped grid with every live cell translated by `(-1,-1)` — one row up and
one column left, modulo the dimensions (the stamp is a northwest-traveling
glider). -/
theorem glider_four_ticks_northwest :
    Universe.tick (Universe.tick (Universe.tick (Universe.tick
        (Universe.create_object ⟨10, 10, List.replicate 100 false⟩ "glider" 5 5))))
      = translateDiag
          (Universe.create_object ⟨10, 10, List.replicate 100 false⟩ "glider" 5 5) 1 1 := by
  decide

set_option maxRecDepth 100000 in
/-- Counterexample to C3 as stated: 4 ticks of the glider stamped at `(5,5)`
on the empty 10×10 torus do not equal the stamp translated by `(+1,+1)`
(down-right), i.e. by `(9,9)` source offsets on a 10×10 torus. -/
theorem glider_four_ticks_not_southeast :
    ¬ (Universe.tick (Universe.tick (Universe.tick (Universe.tick
        (Universe.create_object ⟨10, 10, List.replicate 100 false⟩ "glider" 5 5))))
      = translateDiag
          (Universe.create_object ⟨10, 10, List.replicate 100 false⟩ "glider" 5 5) 9 9) := by
  decide

set_option maxRecDepth 100000 in
/-- Claim C4 evidence: `render` on the all-dead 8×8 universe returns a single
line of 2 glyphs — one glyph per packed 32-bit block of the bit-set — instead
of the 8 lines of 8 per-cell glyphs that the spec's per-cell rendering
(`specRender`) produces. -/
theorem render_prints_blocks_not_cells :
    Universe.render ⟨8, 8, List.replicate 64 false⟩ = "◻◻\n" ∧
    (Universe.render ⟨8, 8, List.replicate 64 false⟩).toList.count '\n' = 1 ∧
    specRender ⟨8, 8, List.replicate 64 false⟩
        = "◻◻◻◻◻◻◻◻\n◻◻◻◻◻◻◻◻\n◻◻◻◻◻◻◻◻\n◻◻◻◻◻◻◻◻\n◻◻◻◻◻◻◻◻\n◻◻◻◻◻◻◻◻\n◻◻◻◻◻◻◻◻\n◻◻◻◻◻◻◻◻\n" ∧
    Universe.render ⟨8, 8, List.replicate 64 false⟩ ≠ specRender ⟨8, 8, List.replicate 64 false⟩ := by
  decide

lemma sizeInv_mk (w h : Nat) (cs : List Bool) (hl : cs.length = w * h) :
    SizeInv (Universe.mk w h cs) := hl

/-- Claim C5: the invariant `cells.length = width * height` holds for `new`,
is preserved by every operation, and the linear index decomposes as
`get_index (i / width) (i % width) = i`. -/
theorem size_invariant_preserved :
    SizeInv Universe.new ∧
    (∀ u : Universe, SizeInv u →
      SizeInv u.tick ∧
      (∀ w, SizeInv (u.set_width w)) ∧
      (∀ h, SizeInv (u.set_height h)) ∧
      SizeInv u.clear_cells ∧
      (∀ rand, SizeInv (u.randomize_cells rand)) ∧
      (∀ row col, SizeInv (u.toggle_cell row col)) ∧
      (∀ l, SizeInv (u.set_cells l)) ∧
      (∀ name row col, SizeInv (u.create_object name row col))) ∧
    (∀ u : Universe, ∀ i : Nat, u.get_index (i / u.width) (i % u.width) = i) := by
  refine ⟨?_, ?_, ?_⟩
  · exact sizeInv_mk 80 64 _ (by rw [build_cells_length, List.length_replicate])
  · intro u hu
    refine ⟨?_, ?_, ?_, ?_, ?_, ?_, ?_, ?_⟩
    · show u.tick.cells.length = u.width * u.height
      rw [tick_cells_length]
      exact hu
    · intro w
      show (build_cells (List.replicate (w * u.height) false) w u.height
        UniverseContents.Empty (fun _ => false)).length = w * u.height
      rw [build_cells_length, List.length_replicate]
    · intro h
      show (build_cells (List.replicate (u.width * h) false) u.width h
        UniverseContents.Empty (fun _ => false)).length = u.width * h
      rw [build_cells_length, List.length_replicate]
    · show (build_cells (List.replicate (u.width * u.height) false) u.width u.height
        UniverseContents.Empty (fun _ => false)).length = u.width * u.height
      rw [build_cells_length, List.length_replicate]
    · intro rand
      show (build_cells (List.replicate (u.width * u.height) false) u.width u.height
        UniverseContents.Random rand).length = u.width * u.height
      rw [build_cells_length, List.length_replicate]
    · intro row col
      show (u.set_cells [(row, col)]).cells.length = u.width * u.height
      rw [set_cells_length]
      exact hu
    · intro l
      show (u.set_cells l).cells.length = u.width * u.height
      rw [set_cells_length]
      exact hu
    · intro name row col
      unfold SizeInv Universe.create_object
      rw [create_cells_length, create_width, create_height]
      exact hu
  · intro u i
    show i / u.width * u.width + i % u.width = i
    rw [Nat.mul_comm]
    exact Nat.div_add_mod i u.width

/-- Witness for C5: the invariant transported through `tick` on a concrete
2×3 universe. -/
theorem size_invariant_preserved_witness :
    SizeInv (Universe.tick ⟨2, 3, [true, false, true, false, true, false]⟩) :=
  (size_invariant_preserved.2.1 ⟨2, 3, [true, false, true, false, true, false]⟩ rfl).1

/-- Claim C6: toggling the same coordinate list twice returns the grid to its
original state, and `set_cells` never changes the dimensions. -/
theorem set_cells_twice_id (u : Universe) (l : List (Nat × Nat))
    (hin : ∀ p ∈ l, p.1 < u.height ∧ p.2 < u.width) :
    (u.set_cells l).set_cells l = u ∧
    (u.set_cells l).width = u.width ∧ (u.set_cells l).height = u.height := by
  refine ⟨?_, rfl, rfl⟩
  obtain ⟨w, h, cs⟩ := u
  simp only [Universe.set_cells]
  rw [foldl_toggle_invol]

/-- Witness for C6: a double toggle on a concrete 2×2 universe. -/
theorem set_cells_twice_id_witness :
    Universe.set_cells
        (Universe.set_cells ⟨2, 2, [true, false, false, true]⟩ [(0, 1), (1, 0)])
        [(0, 1), (1, 0)]
      = ⟨2, 2, [true, false, false, true]⟩ :=
  (set_cells_twice_id ⟨2, 2, [true, false, false, true]⟩ [(0, 1), (1, 0)] (by decide)).1

/-- Claim C7: `set_width w` (and symmetrically `set_height h`) produces
exactly the Empty fill: the new dimension is stored, the other dimension is
unchanged, and every bit of the rebuilt `w * height` (resp. `width * h`)
bit-set is false. -/
theorem resize_discards_state (u : Universe) (w h : Nat) :
    (u.set_width w).width = w ∧ (u.set_width w).height = u.height ∧
    (u.set_width w).cells = List.replicate (w * u.height) false ∧
    (u.set_height h).height = h ∧ (u.set_height h).width = u.width ∧
    (u.set_height h).cells = List.replicate (u.width * h) false :=
  ⟨rfl, rfl, build_cells_empty w u.height (w * u.height) (fun _ => false),
   rfl, rfl, build_cells_empty u.width h (u.width * h) (fun _ => false)⟩

/-- Claim C8: the `Lines` (StripePattern) fill sets bit `i` to true iff
`i % 2 = 0` or `i % 7 = 0`, for every `i < width * height`. -/
theorem lines_fill_pattern (w h : Nat) (rand : Nat → Bool) (i : Nat) (hi : i < w * h) :
    ((build_cells (List.replicate (w * h) false) w h
        UniverseContents.Lines rand).getD i false = true)
      ↔ (i % 2 = 0 ∨ i % 7 = 0) := by
  have hv : (build_cells (List.replicate (w * h) false) w h
      UniverseContents.Lines rand).getD i false = (i % 2 == 0 || i % 7 == 0) :=
    foldl_set_getD_of_mem (fun j => j) (fun j => (j % 2 == 0 || j % 7 == 0))
      (List.range (w * h)) (List.replicate (w * h) false) i i
      (List.mem_range.mpr hi) rfl
      (fun x _ hx => congrArg (fun j => (j % 2 == 0 || j % 7 == 0)) hx)
      (by rw [List.length_replicate]; exact hi)
  rw [hv]
  simp

/-- Witness for C8: the stripe pattern evaluated on the spec's 8×8 grid at
bit 14. -/
theorem lines_fill_pattern_witness :
    ((build_cells (List.replicate (8 * 8) false) 8 8
        UniverseContents.Lines (fun _ => false)).getD 14 false = true)
      ↔ (14 % 2 = 0 ∨ 14 % 7 = 0) :=
  lines_fill_pattern 8 8 (fun _ => false) 14 (by decide)

/-- Claim C9: `tick` is deterministic — its result depends only on the prior
width, height and cell bits, so two universes that agree on all three tick to
the same universe. -/
theorem tick_deterministic (u v : Universe) (hw : u.width = v.width)
    (hh : u.height = v.height) (hc : u.cells = v.cells) : u.tick = v.tick := by
  obtain ⟨uw, uh, uc⟩ := u
  obtain ⟨vw, vh, vc⟩ := v
  cases hw
  cases hh
  cases hc
  rfl

/-- Witness for C9: determinism applied to two copies of a concrete 3×3
universe. -/
theorem tick_deterministic_witness :
    Universe.tick ⟨3, 3, List.replicate 9 true⟩
      = Universe.tick ⟨3, 3, List.replicate 9 true⟩ :=
  tick_deterministic ⟨3, 3, List.replicate 9 true⟩ ⟨3, 3, List.replicate 9 true⟩
    rfl rfl rfl

/-- Claim C10: `create_object "spaceship"` dispatches to the empty
`create_spaceship` body and therefore leaves the universe unchanged. -/
theorem create_object_spaceship_noop (u : Universe) (row col : Nat) :
    u.create_object "spaceship" row col = u := rfl
